import Mathlib

/-!
Verification of the `xerdev/file` banner utility against its specification.

The repository contains four JavaScript program variants:
* `src/run.js`, first document (lines 1-120): short banner + `ensureNodeModules`
  (guarded by `package.json`, returning a Bool) + `startApp` dispatch — "the launcher variant".
  Embedded below under namespace `RunJs1`.
* `src/run.js`, second document (lines 121-338): full banner + `ensureNodeModules`
  with a reinstall retry + `npm start`.  Embedded under `RunJs2`.
* `src/unnamed/part_000`: full banner (vmstat-based CPU probe with a `top` fallback,
  NaN-guarded `formatBytes`) + interactive bash.  Embedded under `Part000`.
* `src/unnamed/part_001`: full banner (no NaN guard in `formatBytes`, no
  `Math.floor` in `formatUptime`) + interactive bash.  Embedded under `Part001`.

JavaScript numbers are modelled as exact rationals; `NaN` is modelled as `none`
in `Option ℚ`.  `Math.log`, `toFixed` and number-to-string conversion are
modelled as exact real operations (all integer inputs exercised by the claims
are below 2^53, where IEEE doubles are exact; division by powers of two is
exact as well, so the only idealisation is treating `Math.log` as exact).
Shell commands are modelled by their outcome: `none` when the command throws,
`some stdout` on success.
-/

/-- A JavaScript value as returned by the formatting helpers: either a string,
or a number (`num none` is `NaN`, as produced e.g. by `number + undefined`). -/
inductive JSVal where
  | str : String → JSVal
  | num : Option ℚ → JSVal
deriving DecidableEq

/-- The characters treated as whitespace by `String.prototype.trim` (ASCII part). -/
def jsWhitespace (c : Char) : Bool :=
  c = ' ' || c = '\t' || c = '\n' || c = '\r'

/-- Model of JavaScript `String.prototype.trim` (over the ASCII whitespace the
program's command outputs can contain). -/
def jsTrim (s : String) : String :=
  String.mk (((s.toList.dropWhile jsWhitespace).reverse.dropWhile jsWhitespace).reverse)

/-- Split a character list at every occurrence of `sep`, keeping empty groups:
the semantics of JavaScript `String.prototype.split` with a single-character
separator (`"".split` gives `[""]`, `"a  b".split(' ')` gives `["a","","b"]`). -/
def splitOnChar (sep : Char) : List Char → List (List Char)
  | [] => [[]]
  | c :: cs =>
    if c = sep then [] :: splitOnChar sep cs
    else
      match splitOnChar sep cs with
      | [] => [[c]]
      | g :: gs => (c :: g) :: gs

/-- Model of JavaScript `s.split(' ')`. -/
def jsSplitSpace (s : String) : List String :=
  (splitOnChar ' ' s.toList).map String.mk

/-- Digits of a decimal literal, value accumulated left to right. -/
def digitsVal (l : List Char) : Nat :=
  l.foldl (fun a c => a * 10 + (c.toNat - 48)) 0

/-- Model of JavaScript `parseFloat` on the decimal forms the program's shell
commands produce: skip leading whitespace, read an optional sign, then the
longest prefix `digits [. digits]`; `none` (NaN) when no digit is found.
(Exponent and `Infinity` forms never arise here and are not modelled.) -/
def jsParseFloat (s : String) : Option ℚ :=
  let l := s.toList.dropWhile jsWhitespace
  let (sgn, l) :=
    match l with
    | '-' :: rest => ((-1 : ℚ), rest)
    | '+' :: rest => ((1 : ℚ), rest)
    | _ => ((1 : ℚ), l)
  let ds := l.takeWhile Char.isDigit
  let l' := l.dropWhile Char.isDigit
  let fs :=
    match l' with
    | '.' :: rest => rest.takeWhile Char.isDigit
    | _ => []
  if ds = [] && fs = [] then none
  else some (sgn * ((digitsVal ds : ℚ) + (digitsVal fs : ℚ) / 10 ^ fs.length))

/-- Model of JavaScript `Number(s)` (the `ToNumber` coercion used via
`.map(Number)`): the whole trimmed string must be a decimal literal; the empty
or all-whitespace string coerces to `0`; anything else is NaN (`none`). -/
def jsToNumber (s : String) : Option ℚ :=
  let l := (jsTrim s).toList
  if l = [] then some 0
  else
    let (sgn, l) :=
      match l with
      | '-' :: rest => ((-1 : ℚ), rest)
      | '+' :: rest => ((1 : ℚ), rest)
      | _ => ((1 : ℚ), l)
    let ds := l.takeWhile Char.isDigit
    let l' := l.dropWhile Char.isDigit
    let (fs, l'') :=
      match l' with
      | '.' :: rest => (rest.takeWhile Char.isDigit, rest.dropWhile Char.isDigit)
      | _ => ([], l')
    if (ds = [] && fs = []) || l'' ≠ [] then none
    else some (sgn * ((digitsVal ds : ℚ) + (digitsVal fs : ℚ) / 10 ^ fs.length))

/-- The integer chosen by `toFixed` for a nonnegative magnitude: the multiple of
`10^(-d)` nearest to `y`, ties rounded up (ECMA-262 `Number.prototype.toFixed`). -/
def toFixedMag (d : Nat) (y : ℚ) : Int :=
  (y * 10 ^ d + 1 / 2).floor

/-- Decimal digit characters of `k`, left-padded with `'0'` to width `d`. -/
def padDigits (d k : Nat) : List Char :=
  let ds := Nat.toDigits 10 k
  List.replicate (d - ds.length) '0' ++ ds

/-- Model of JavaScript `x.toFixed(d)` (also covering `NaN.toFixed(d) = "NaN"`):
negative numbers are formatted as `"-"` followed by the format of `-x`. -/
def jsToFixed (d : Nat) (x : Option ℚ) : String :=
  match x with
  | none => "NaN"
  | some x =>
    let sgn := if x < 0 then "-" else ""
    let y := if x < 0 then -x else x
    let n := (toFixedMag d y).toNat
    if d = 0 then sgn ++ Nat.repr n
    else sgn ++ Nat.repr (n / 10 ^ d) ++ "." ++ String.mk (padDigits d (n % 10 ^ d))

/-- Drop trailing decimal zeros: `stripZeros m d` halves the pair `(digits, width)`
while the last digit is `0` and decimals remain. -/
def stripZeros : Nat → Nat → Nat × Nat
  | m, 0 => (m, 0)
  | m, d + 1 => if m % 10 = 0 then stripZeros (m / 10) d else (m, d + 1)

/-- Model of `parseFloat(x.toFixed(d))` rendered back to a string, which is how
`formatBytes` produces its numeric part: the `toFixed` digits with trailing
zeros (and a then-trailing point) removed, `-0` rendered as `"0"`. -/
def jsToFixedStrip (d : Nat) (x : ℚ) : String :=
  let neg := x < 0
  let y := if neg then -x else x
  let n := (toFixedMag d y).toNat
  let (m, d') := stripZeros n d
  let sgn := if neg && m ≠ 0 then "-" else ""
  if d' = 0 then sgn ++ Nat.repr m
  else sgn ++ Nat.repr (m / 10 ^ d') ++ "." ++ String.mk (padDigits d' (m % 10 ^ d'))

/-- The suffix table `['B', 'K', 'M', 'G', 'T']` of `formatBytes`. -/
def sizesList : List String := ["B", "K", "M", "G", "T"]

/-- Common body of every `formatBytes` variant, after the `bytes === 0` (and, where
present, `isNaN`) guard: `i = Math.floor(Math.log(bytes)/Math.log(1024))` modelled
exactly, then `parseFloat((bytes / 1024^i).toFixed(dm)) + sizes[i]`.  For `b < 1`
the exponent is negative and for `i ≥ 5` it is out of range; in both cases
`sizes[i]` is `undefined` and the `+` is numeric addition yielding NaN. -/
def formatBytesCore (b : ℚ) (decimals : Int) : JSVal :=
  if b < 1 then JSVal.num none
  else
    let dm : Nat := if decimals < 0 then 0 else decimals.toNat
    let i : Nat := Nat.log 1024 b.floor.toNat
    if i < 5 then JSVal.str (jsToFixedStrip dm (b / 1024 ^ i) ++ sizesList.getD i "")
    else JSVal.num none

/-- `formatBytes` as defined in both `src/run.js` documents and in
`src/unnamed/part_000`: `if (bytes === 0 || isNaN(bytes)) return '0B';` then the
common body.  The `decimals` parameter defaults to `1` at every call site. -/
def formatBytes (bytes : Option ℚ) (decimals : Int) : JSVal :=
  match bytes with
  | none => JSVal.str "0B"
  | some b => if b = 0 then JSVal.str "0B" else formatBytesCore b decimals

namespace Part001

/-- `formatBytes` as defined in `src/unnamed/part_001`: the guard is only
`if (bytes === 0) return '0B';` — there is no `isNaN` check, so a NaN argument
flows through `Math.log`, `toFixed` (producing `"NaN"`), `parseFloat` (producing
NaN) and the numeric `+ sizes[i]`, returning the number NaN. -/
def formatBytes (bytes : Option ℚ) (decimals : Int) : JSVal :=
  match bytes with
  | none => JSVal.num none
  | some b => if b = 0 then JSVal.str "0B" else formatBytesCore b decimals

end Part001

/-- One `"<n> unit(s)"` component pushed by `formatUptime`, given the component
value as an integer (`days`, `hours` or `minutes`). -/
def uptimeComponent (n : Int) (unit : String) : List String :=
  if 0 < n then [toString n ++ unit ++ (if 1 < n then "s" else "")] else []

/-- `formatUptime` as defined in both `src/run.js` documents and in
`src/unnamed/part_000`: `seconds = Math.floor(seconds)`, split into days, hours
and minutes with `Math.floor` and `%`, push the nonzero components, join with
`' '`, and fall back to `'0 minutes'` when the joined string is empty. -/
def formatUptime (s : ℚ) : String :=
  let seconds : Int := s.floor
  let days : Int := ((seconds : ℚ) / 86400).floor
  let hours : Int := (((seconds.tmod 86400 : Int) : ℚ) / 3600).floor
  let minutes : Int := (((seconds.tmod 3600 : Int) : ℚ) / 60).floor
  let result :=
    uptimeComponent days " day" ++ uptimeComponent hours " hour" ++
      uptimeComponent minutes " minute"
  if result = [] then "0 minutes" else String.intercalate " " result

/-- JavaScript `%` (truncated remainder, `fmod`) on exact rationals. -/
def jsFmod (a b : ℚ) : ℚ :=
  a - b * (Rat.floor (a / b) : ℚ)

namespace Part001

/-- `formatUptime` as defined in `src/unnamed/part_001`: identical to the shared
variant except that the initial `seconds = Math.floor(seconds)` line is absent,
so `%` acts on the raw (possibly fractional) number.  `jsFmod` uses `Rat.floor`,
which coincides with JavaScript truncation for the nonnegative arguments an
uptime can be. -/
def formatUptime (s : ℚ) : String :=
  let days : Int := (s / 86400).floor
  let hours : Int := (jsFmod s 86400 / 3600).floor
  let minutes : Int := (jsFmod s 3600 / 60).floor
  let result :=
    uptimeComponent days " day" ++ uptimeComponent hours " hour" ++
      uptimeComponent minutes " minute"
  if result = [] then "0 minutes" else String.intercalate " " result

end Part001

/-- The uptime string as claim C8 words it, over the three natural-number
components: the space-joined concatenation of the `"<d> day(s)"`, `"<h> hour(s)"`,
`"<m> minute(s)"` pieces taken only for the nonzero components, the plural `s`
appended exactly when the component exceeds 1, and `"0 minutes"` when all three
components are zero. -/
def uptimeSpecString (d h m : Nat) : String :=
  let pieces :=
    (if 0 < d then [toString d ++ " day" ++ (if 1 < d then "s" else "")] else []) ++
      (if 0 < h then [toString h ++ " hour" ++ (if 1 < h then "s" else "")] else []) ++
      (if 0 < m then [toString m ++ " minute" ++ (if 1 < m then "s" else "")] else [])
  if pieces = [] then "0 minutes" else String.intercalate " " pieces

/-- ANSI escape `colors.reset`. -/
def colReset : String := "\x1b[0m"

/-- ANSI escape `colors.bright`. -/
def colBright : String := "\x1b[1m"

/-- ANSI escape `colors.cyan`. -/
def colCyan : String := "\x1b[36m"

/-- ANSI escape `colors.green`. -/
def colGreen : String := "\x1b[32m"

/-- ANSI escape `colors.yellow`. -/
def colYellow : String := "\x1b[33m"

/-- ANSI escape `colors.blue`. -/
def colBlue : String := "\x1b[34m"

/-- ANSI escape `colors.magenta`. -/
def colMagenta : String := "\x1b[35m"

/-- ANSI escape `colors.white`. -/
def colWhite : String := "\x1b[37m"

/-- ANSI escape `colors.red`. -/
def colRed : String := "\x1b[31m"

/-- Render a `JSVal` inside a template literal.  Only the string and NaN cases
are ever reached by the embedded programs (`formatBytes` yields `.str` or NaN);
the general double-to-shortest-string algorithm is not needed and integers are
rendered via their numerator. -/
def jsValRender : JSVal → String
  | JSVal.str s => s
  | JSVal.num none => "NaN"
  | JSVal.num (some q) => toString q.num

/-- The result of `Memory`-style info records built by `getMemoryInfo`. -/
structure MemInfo where
  total : JSVal
  used : JSVal
  free : JSVal
deriving DecidableEq

/-- `getMemoryInfo` as in all variants: `total = os.totalmem()`, `free = os.freemem()`,
`used = total - free`, each formatted with `formatBytes`. -/
def getMemoryInfo (totalmem freemem : ℚ) : MemInfo :=
  { total := formatBytes (some totalmem) 1
    used := formatBytes (some (totalmem - freemem)) 1
    free := formatBytes (some freemem) 1 }

/-- `parts[i]` coerced by `Number`: a missing element is `undefined`, which acts
exactly like NaN in every use below (`isNaN(undefined)`, `Math.log(undefined)`
and `undefined || 0` agree with the NaN case), so both map to `none`. -/
def partNum (parts : List String) (i : Nat) : Option ℚ :=
  match parts.get? i with
  | none => none
  | some t => jsToNumber t

namespace RunJs1

/-- The CPU-probe shell command of `src/run.js` (both documents):
`top -bn1 | grep 'Cpu(s)' | awk '{print 100 - $8}'`. -/
def topCmd : String :=
  "top -bn1 | grep \x27Cpu(s)\x27 | awk \x27\x7bprint 100 - $8\x7d\x27"

/-- `getCPUUsage` of the first `src/run.js` document: parse the command output
with `parseFloat`; when it parses, return `usage.toFixed(1)`; when it is NaN or
the command throws, fall back to `(os.loadavg()[0] / os.cpus().length * 100).toFixed(1)`. -/
def getCPUUsage (cmdOut : Option String) (load0 ncpus : ℚ) : String :=
  match cmdOut with
  | some stdout =>
    match jsParseFloat (jsTrim stdout) with
    | some usage => jsToFixed 1 (some usage)
    | none => jsToFixed 1 (some (load0 / ncpus * 100))
  | none => jsToFixed 1 (some (load0 / ncpus * 100))

end RunJs1

namespace Part001

/-- `getCPUUsage` of `src/unnamed/part_001`: `parseFloat(stdout.trim()).toFixed(1)`
with no NaN check on the parsed value; only a thrown command yields `'N/A'`.
An unparseable line therefore yields `NaN.toFixed(1) = "NaN"`. -/
def getCPUUsage (cmdOut : Option String) : String :=
  match cmdOut with
  | some stdout => jsToFixed 1 (jsParseFloat (jsTrim stdout))
  | none => "N/A"

/-- `getSwapInfo` of `src/unnamed/part_001`: split the output and feed the two
`Number`-coerced fields to the unguarded `formatBytes`; `'N/A'` pair only when
the command throws. -/
def getSwapInfo (cmdOut : Option String) : JSVal × JSVal :=
  match cmdOut with
  | none => (JSVal.str "N/A", JSVal.str "N/A")
  | some stdout =>
    let parts := jsSplitSpace (jsTrim stdout)
    (formatBytes (partNum parts 0) 1, formatBytes (partNum parts 1) 1)

end Part001

namespace Part000

/-- The vmstat CPU-probe command of `src/unnamed/part_000`. -/
def vmstatCmd : String :=
  "vmstat 1 2 | tail -1 | awk \x27\x7bprint 100 - $15\x7d\x27"

/-- The fallback `top`-based CPU-probe command of `src/unnamed/part_000`. -/
def topSedCmd : String :=
  "top -bn1 | grep \x27Cpu(s)\x27 | sed \x27s/.*, *\\([0-9.]*\\)%* id.*/\\1/\x27 | awk \x27\x7bprint 100 - $1\x7d\x27"

/-- The `top`-method block of `getCPUUsage` in `src/unnamed/part_000`, entered
when the `vmstat` result is invalid: parse the `top` output; a thrown command,
NaN or a negative value yields `'N/A'`.  Returns the value together with the
full list of commands attempted so far. -/
def cpuTopFallback (topOut : Option String) : String × List String :=
  match topOut with
  | none => ("N/A", [vmstatCmd, topSedCmd])
  | some t =>
    match jsParseFloat (jsTrim t) with
    | none => ("N/A", [vmstatCmd, topSedCmd])
    | some tu =>
      if tu < 0 then ("N/A", [vmstatCmd, topSedCmd])
      else (jsToFixed 1 (some tu), [vmstatCmd, topSedCmd])

/-- `getCPUUsage` of `src/unnamed/part_000`, returning the value together with
the list of shell commands attempted: `vmstat` first; when its output is NaN or
outside `[0, 100]`, the `top` method is tried; any thrown command or invalid
`top` result yields `'N/A'`. -/
def getCPUUsage (vmstatOut topOut : Option String) : String × List String :=
  match vmstatOut with
  | none => ("N/A", [vmstatCmd])
  | some stdout =>
    match jsParseFloat (jsTrim stdout) with
    | none => cpuTopFallback topOut
    | some usage =>
      if usage < 0 ∨ 100 < usage then cpuTopFallback topOut
      else (jsToFixed 1 (some usage), [vmstatCmd])

/-- `getSwapInfo` of `src/unnamed/part_000`: `'0B'` pair when the command throws
or fewer than two fields are present; otherwise the `Number`-coerced fields are
formatted by the NaN-guarded `formatBytes` (so NaN fields also yield `'0B'`). -/
def getSwapInfo (cmdOut : Option String) : JSVal × JSVal :=
  match cmdOut with
  | none => (JSVal.str "0B", JSVal.str "0B")
  | some stdout =>
    let parts := jsSplitSpace (jsTrim stdout)
    if parts.length < 2 then (JSVal.str "0B", JSVal.str "0B")
    else (formatBytes (partNum parts 0) 1, formatBytes (partNum parts 1) 1)

end Part000

/-- Events a program run can produce, in temporal order: a `console.clear`, a
printed line (`console.log`/`console.error`), a shell command run through
`execPromise`, or a child process spawned with `spawn`. -/
inductive Ev where
  | clearScreen : Ev
  | out : String → Ev
  | execCmd : String → Ev
  | spawnEv : String → List String → Ev
deriving DecidableEq

/-- Naive substring test: does `needle` occur contiguously in `hay`? -/
def containsStr (needle hay : String) : Bool :=
  hay.toList.tails.any fun t => needle.toList.isPrefixOf t

/-- An event is a dependency-installation attempt when it is a shell command
containing `npm install` (this covers both the plain install and the
`rm -rf node_modules && npm install` retry). -/
def isInstallEv : Ev → Bool
  | Ev.execCmd c => containsStr "npm install" c
  | _ => false

/-- An event is a child-process spawn. -/
def isSpawnEv : Ev → Bool
  | Ev.spawnEv _ _ => true
  | _ => false

/-- The spawned processes of a trace, in order. -/
def spawnsOf (t : List Ev) : List (String × List String) :=
  t.filterMap fun e =>
    match e with
    | Ev.spawnEv c args => some (c, args)
    | _ => none

/-- The 64-character horizontal rule `══…══` used by every banner line. -/
def hbar : String := String.mk (List.replicate 64 '═')

namespace RunJs1

/-- The print sequence of `displaySystemInfo` in the first `src/run.js` document,
given the already-computed metric strings: clear, three banner lines, the CPU
probe (which runs after the banner lines are printed), then the four info lines
and the footer. -/
def displayTraceCore (cpuUsage : String) (memory : MemInfo) (uptime nodeVersion : String) :
    List Ev :=
  [Ev.clearScreen,
   Ev.out (colCyan ++ colBright ++ ("\n╔" ++ hbar ++ "╗")),
   Ev.out "║          🚀  SYSTEM INFORMATION - PTERODACTYL PANEL 🚀          ║",
   Ev.out (("╚" ++ hbar ++ "╝") ++ colReset ++ "\n"),
   Ev.execCmd topCmd,
   Ev.out (colGreen ++ "▻ NodeJS version" ++ colReset ++ ": " ++ nodeVersion),
   Ev.out (colCyan ++ "▻ Memory" ++ colReset ++ ": " ++ jsValRender memory.total ++ " (" ++
     jsValRender memory.used ++ " Used)"),
   Ev.out (colYellow ++ "▻ CPU Usage" ++ colReset ++ ": " ++ cpuUsage ++ "%"),
   Ev.out (colMagenta ++ "▻ Uptime" ++ colReset ++ ": " ++ uptime),
   Ev.out (colCyan ++ ("\n" ++ hbar) ++ colReset),
   Ev.out (colGreen ++ "✓ System Ready - Checking Node Modules..." ++ colReset),
   Ev.out (colCyan ++ hbar ++ colReset ++ "\n")]

/-- `displaySystemInfo` of the first `src/run.js` document over the raw system
inputs: the CPU usage, memory record and uptime are computed by the functions
above and printed by `displayTraceCore`. -/
def displayTrace (cpuOut : Option String) (load0 ncpus totalmem freemem uptimeSec : ℚ)
    (nodeVersion : String) : List Ev :=
  displayTraceCore (getCPUUsage cpuOut load0 ncpus) (getMemoryInfo totalmem freemem)
    (formatUptime uptimeSec) nodeVersion

/-- The install command of the first `src/run.js` document. -/
def installCmd : String := "npm install --no-audit --silent --no-bin-links --legacy-peer-deps"

/-- Event trace of `ensureNodeModules` in the first `src/run.js` document:
no `package.json` → error line, skip; `node_modules` missing → run `npm install`
(success or failure line); otherwise report it was found. -/
def ensureTrace (hasPackage nmExists installOk : Bool) : List Ev :=
  if !hasPackage then
    [Ev.out (colRed ++ "❌ Tidak dapat menemukan package.json. Melewati proses instalasi." ++ colReset)]
  else if !nmExists then
    [Ev.out (colYellow ++ "⚙️  node_modules tidak ditemukan, menjalankan npm install (disembunyikan)..." ++ colReset),
     Ev.execCmd installCmd] ++
      (if installOk then [Ev.out (colGreen ++ "✅ Instalasi dependensi selesai." ++ colReset)]
       else [Ev.out (colRed ++ "❌ Gagal menginstal dependensi." ++ colReset)])
  else [Ev.out (colGreen ++ "✅ node_modules ditemukan." ++ colReset)]

/-- Return value of `ensureNodeModules` in the first `src/run.js` document:
`false` without `package.json` or when the install throws, `true` otherwise. -/
def ensureResult (hasPackage nmExists installOk : Bool) : Bool :=
  if !hasPackage then false
  else if !nmExists then installOk
  else true

end RunJs1

/-- The `scripts` object of a parsed `package.json` (only the `start` entry is
inspected by the program). -/
structure Scripts where
  start : Option String
deriving DecidableEq

/-- A parsed `package.json` as far as `startApp` inspects it. -/
structure Pkg where
  scripts : Option Scripts
deriving DecidableEq

/-- The JavaScript truthiness test `pkg.scripts && pkg.scripts.start`: the
`scripts` object must exist and its `start` entry must be present and non-empty
(an empty string is falsy). -/
def pkgHasStart (p : Pkg) : Bool :=
  match p.scripts with
  | none => false
  | some sc =>
    match sc.start with
    | none => false
    | some s => s != ""

/-- Model of JavaScript `String.prototype.endsWith`. -/
def jsEndsWith (s sfx : String) : Bool :=
  sfx.toList.isSuffixOf s.toList

namespace RunJs1

/-- Event trace of `startApp` in the first `src/run.js` document: without
`package.json`, run `node` on `index.js` or else on the first `*.js` directory
entry, or print an error when neither exists; with `package.json`, run
`npm start` when a truthy `scripts.start` exists, else `node .`. -/
def startAppTrace (pkgExists : Bool) (pkg : Pkg) (indexExists : Bool) (files : List String) :
    List Ev :=
  if !pkgExists then
    let defaultFile :=
      if indexExists then "index.js"
      else (files.find? fun f => jsEndsWith f ".js").getD ""
    if defaultFile ≠ "" then
      [Ev.out (colCyan ++ "🚀 Menjalankan file default: " ++ defaultFile ++ colReset),
       Ev.spawnEv "node" [defaultFile]]
    else [Ev.out (colRed ++ "❌ Tidak menemukan file .js untuk dijalankan." ++ colReset)]
  else if !(pkgHasStart pkg) then
    [Ev.out (colYellow ++ "⚠️  Tidak ada script \x27start\x27. Menjalankan \x27node .\x27" ++ colReset),
     Ev.spawnEv "node" ["."]]
  else
    [Ev.out (colCyan ++ "🚀 Menjalankan aplikasi dengan npm start..." ++ colReset),
     Ev.spawnEv "npm" ["start"]]

end RunJs1

/-- The run environment of the first `src/run.js` document: command outcomes,
raw system metric values, and the file-system facts its control flow reads. -/
structure Env1 where
  cpuOut : Option String
  load0 : ℚ
  ncpus : ℚ
  totalmem : ℚ
  freemem : ℚ
  uptimeSec : ℚ
  nodeVersion : String
  hasPackage : Bool
  nmExists : Bool
  installOk : Bool
  pkg : Pkg
  indexExists : Bool
  files : List String

namespace RunJs1

/-- The whole run of the first `src/run.js` document, as performed by its main
IIFE: `await displaySystemInfo(); const canRun = await ensureNodeModules();
startApp(canRun)` — three sequential phases (the `canRun` argument is ignored
by `startApp`, which declares no parameter). -/
def mainTrace (e : Env1) : List Ev :=
  displayTrace e.cpuOut e.load0 e.ncpus e.totalmem e.freemem e.uptimeSec e.nodeVersion ++
    ensureTrace e.hasPackage e.nmExists e.installOk ++
    startAppTrace e.hasPackage e.pkg e.indexExists e.files

end RunJs1

namespace RunJs2

/-- The install command of the second `src/run.js` document. -/
def installCmd : String := "npm install --no-bin-links --legacy-peer-deps --unsafe-perm=true"

/-- The reinstall command run by the retry of the second `src/run.js` document. -/
def reinstallCmd : String :=
  "rm -rf node_modules && npm install --no-bin-links --legacy-peer-deps --unsafe-perm=true"

/-- Event trace of `ensureNodeModules` in the second `src/run.js` document:
when `node_modules` is missing, run `npm install`; when that throws, print the
failure and retry once with `rm -rf node_modules && npm install ...`.
`errMsg` and `reErrMsg` stand for the thrown `error.message` texts. -/
def ensureTrace (nmExists installOk reinstallOk : Bool) (errMsg reErrMsg : String) : List Ev :=
  if nmExists then [Ev.out (colGreen ++ "✅ node_modules directory found." ++ colReset)]
  else
    [Ev.out (colYellow ++ "⚙️  node_modules not found, running npm install..." ++ colReset),
     Ev.execCmd installCmd] ++
      (if installOk then [Ev.out (colGreen ++ "✅ npm install completed successfully." ++ colReset)]
       else
         [Ev.out (colRed ++ "❌ npm install failed: " ++ errMsg ++ colReset),
          Ev.out (colYellow ++ "Trying to reinstall..." ++ colReset),
          Ev.execCmd reinstallCmd] ++
           (if reinstallOk then [Ev.out (colGreen ++ "✅ npm reinstall success." ++ colReset)]
            else [Ev.out (colRed ++ "❌ Reinstall failed: " ++ reErrMsg ++ colReset)]))

end RunJs2

/-- The public-IP info record of the full-banner variants. -/
structure IPInfo where
  ip : String
  country : String
  region : String
  isp : String
deriving DecidableEq

/-- Model of JavaScript `String.prototype.padEnd` with spaces. -/
def padEnd (s : String) (n : Nat) : String :=
  s ++ String.mk (List.replicate (n - s.length) ' ')

namespace Part001

/-- One info line as rendered by `printInfo` of the full banner:
`▻ <label padded to 16> : <value>` with the colour escapes of the source. -/
def printInfoLine (label value color : String) : String :=
  colCyan ++ "▻ " ++ colBright ++ padEnd label 16 ++ colReset ++ ": " ++ color ++ value ++ colReset

/-- The `(label, value, colour)` triples printed by `displaySystemInfo` of
`src/unnamed/part_001` (identical in `src/unnamed/part_000` and the second
`src/run.js` document), in source order. -/
def infoTriples (ipInfo : IPInfo) (cpuUsage : String) (memory : MemInfo)
    (swap disk : JSVal × JSVal) (ncpus : Nat)
    (cpuModel arch kernel osType uptime nodeVersion currentTime : String) :
    List (String × String × String) :=
  [("ISP", ipInfo.isp, colGreen),
   ("IPv4", ipInfo.ip ++ " (Public IP)", colYellow),
   ("Country", ipInfo.country, colBlue),
   ("Region", ipInfo.region, colBlue),
   ("OS", osType, colMagenta),
   ("Uptime", uptime, colGreen),
   ("NodeJS version", nodeVersion, colYellow),
   ("Memory", jsValRender memory.total ++ " (" ++ jsValRender memory.used ++ " Used)", colCyan),
   ("Swap", jsValRender swap.1 ++ " (" ++ jsValRender swap.2 ++ " Used)", colCyan),
   ("Disk", jsValRender disk.1 ++ " (" ++ jsValRender disk.2 ++ " Used)", colMagenta),
   ("CPUs", toString ncpus, colGreen),
   ("Processor", cpuModel, colWhite),
   ("Arch", arch, colYellow),
   ("Kernel", kernel, colBlue),
   ("CPU Usage", cpuUsage ++ "%", colRed),
   ("Current Time", currentTime, colGreen)]

end Part001

/-- The dispatch table of claim C7 as amended: `npm start` for a truthy
`scripts.start`; `node .` when `package.json` exists without one; `node index.js`
or else `node <first *.js file>` when `package.json` is absent; nothing when,
additionally, no `.js` file exists. -/
def startAppSpecDispatch (pkgExists : Bool) (pkg : Pkg) (indexExists : Bool)
    (files : List String) : Option (String × List String) :=
  if pkgExists then
    if pkgHasStart pkg then some ("npm", ["start"]) else some ("node", ["."])
  else if indexExists then some ("node", ["index.js"])
  else
    match files.find? fun f => jsEndsWith f ".js" with
    | some f => some ("node", [f])
    | none => none

lemma ratFloor_eq (q : ℚ) : q.floor = ⌊q⌋ :=
  (Rat.floor_def' q).trans Rat.floor_def.symm

lemma isInstallEv_out (s : String) : isInstallEv (Ev.out s) = false := rfl

lemma isInstallEv_clear : isInstallEv Ev.clearScreen = false := rfl

lemma isInstallEv_spawn (c : String) (a : List String) : isInstallEv (Ev.spawnEv c a) = false := rfl

lemma isSpawnEv_out (s : String) : isSpawnEv (Ev.out s) = false := rfl

lemma isSpawnEv_exec (c : String) : isSpawnEv (Ev.execCmd c) = false := rfl

lemma isSpawnEv_clear : isSpawnEv Ev.clearScreen = false := rfl

lemma isInstall_installCmd1 : isInstallEv (Ev.execCmd RunJs1.installCmd) = true := by decide

lemma isInstall_installCmd2 : isInstallEv (Ev.execCmd RunJs2.installCmd) = true := by decide

lemma isInstall_reinstallCmd2 : isInstallEv (Ev.execCmd RunJs2.reinstallCmd) = true := by decide

lemma isInstall_topCmd : isInstallEv (Ev.execCmd RunJs1.topCmd) = false := by decide

/-- Claim C10 (counterexample): `formatBytes` of `src/unnamed/part_001` does not
return the string `'0B'` on a NaN byte argument — lacking the `isNaN` guard, it
propagates NaN (rendered `"NaN"` in the banner) instead. -/
theorem part001_formatBytes_nan_not_0B : Part001.formatBytes none 1 ≠ JSVal.str "0B" := by
  decide

/-- Claim C10 (amended): the NaN-guarded `formatBytes` of both `src/run.js`
documents and of `src/unnamed/part_000` returns the string `'0B'` for a NaN
byte argument, whatever the `decimals` argument. -/
theorem formatBytes_nan_guarded (d : Int) : formatBytes none d = JSVal.str "0B" := rfl

/-- Claim C4: `formatBytes` and `formatUptime` are pure deterministic functions —
equal arguments yield equal result strings, and (being modelled as plain
functions over their arguments) no call reads or modifies any program state. -/
theorem format_functions_deterministic (b b' : Option ℚ) (d d' : Int) (s s' : ℚ)
    (hb : b = b') (hd : d = d') (hs : s = s') :
    formatBytes b d = formatBytes b' d' ∧ formatUptime s = formatUptime s' := by
  subst hb; subst hd; subst hs; exact ⟨rfl, rfl⟩

/-- Witness for claim C4 at concrete arguments. -/
theorem format_functions_deterministic_witness :
    formatBytes (some 1024) 1 = formatBytes (some 1024) 1 ∧ formatUptime 61 = formatUptime 61 :=
  format_functions_deterministic (some 1024) (some 1024) 1 1 61 61 rfl rfl rfl

/-- The lines printed by a trace, in order. -/
def outLines (t : List Ev) : List String :=
  t.filterMap fun e =>
    match e with
    | Ev.out s => some s
    | _ => none

/-- Claim C3 (counterexample): the startup summary of the first `src/run.js`
document, here at concrete metric values, contains no line mentioning `Swap`
(nor, a fortiori, a swap line): the claim fails for this variant's summary. -/
theorem banner1_has_no_swap_line :
    (outLines (RunJs1.displayTraceCore "0.0"
        ⟨JSVal.str "2K", JSVal.str "1K", JSVal.str "1K"⟩ "0 minutes" "18.0.0")).all
      (fun line => !containsStr "Swap" line) = true := by
  decide

/-- Claim C3 (amended): the full banner (of `src/unnamed/part_001`,
`src/unnamed/part_000` and the second `src/run.js` document) prints one labelled
line for every metric class the spec lists — CPU usage, memory, swap, disk,
public IP, kernel and OS (plus uptime); the first `src/run.js` document's
summary instead only prints NodeJS version, memory, CPU usage and uptime. -/
theorem full_banner_lists_all_metric_classes (ip : IPInfo) (cpu : String) (mem : MemInfo)
    (swap disk : JSVal × JSVal) (n : Nat) (cm ar k os up nv ct : String) :
    ("CPU Usage" ∈ (Part001.infoTriples ip cpu mem swap disk n cm ar k os up nv ct).map
        (fun p => p.1)) ∧
    ("Memory" ∈ (Part001.infoTriples ip cpu mem swap disk n cm ar k os up nv ct).map
        (fun p => p.1)) ∧
    ("Swap" ∈ (Part001.infoTriples ip cpu mem swap disk n cm ar k os up nv ct).map
        (fun p => p.1)) ∧
    ("Disk" ∈ (Part001.infoTriples ip cpu mem swap disk n cm ar k os up nv ct).map
        (fun p => p.1)) ∧
    ("IPv4" ∈ (Part001.infoTriples ip cpu mem swap disk n cm ar k os up nv ct).map
        (fun p => p.1)) ∧
    ("Kernel" ∈ (Part001.infoTriples ip cpu mem swap disk n cm ar k os up nv ct).map
        (fun p => p.1)) ∧
    ("OS" ∈ (Part001.infoTriples ip cpu mem swap disk n cm ar k os up nv ct).map
        (fun p => p.1)) ∧
    ("Uptime" ∈ (Part001.infoTriples ip cpu mem swap disk n cm ar k os up nv ct).map
        (fun p => p.1)) := by
  simp [Part001.infoTriples]

/-- Claim C2 (counterexample): `ensureNodeModules` of the second `src/run.js`
document runs two installation commands when `node_modules` is missing and the
first `npm install` fails — the retry is a second attempt for the same purpose,
refuting "the program never retries after a failure". -/
theorem runjs2_ensure_retries :
    ¬ (RunJs2.ensureTrace false false false "err" "err").countP isInstallEv ≤ 1 := by
  decide

/-- Claim C2 (amended): the launcher variant never retries (its
`ensureNodeModules` runs at most one install command), but the second
`src/run.js` document's `ensureNodeModules` runs a second installation command
exactly when `node_modules` was missing and the first install failed, and
`getCPUUsage` of `src/unnamed/part_000` runs a second probe command (`top`)
when the `vmstat` output is invalid — never more than two attempts. -/
theorem install_attempt_bounds (h n ok rok : Bool) (em rm : String) (v t : Option String) :
    (RunJs1.ensureTrace h n ok).countP isInstallEv ≤ 1 ∧
    (RunJs2.ensureTrace n ok rok em rm).countP isInstallEv ≤ 2 ∧
    ((RunJs2.ensureTrace n ok rok em rm).countP isInstallEv = 2 ↔ n = false ∧ ok = false) ∧
    (Part000.getCPUUsage v t).2.length ≤ 2 := by
  refine ⟨?_, ?_, ?_, ?_⟩
  · cases h <;> cases n <;> cases ok <;>
      simp [RunJs1.ensureTrace, isInstallEv_out, isInstall_installCmd1]
  · cases n <;> cases ok <;> cases rok <;>
      simp [RunJs2.ensureTrace, isInstallEv_out, isInstall_installCmd2, isInstall_reinstallCmd2]
  · cases n <;> cases ok <;> cases rok <;>
      simp [RunJs2.ensureTrace, isInstallEv_out, isInstall_installCmd2, isInstall_reinstallCmd2]
  · have hfb : (Part000.cpuTopFallback t).2 = [Part000.vmstatCmd, Part000.topSedCmd] := by
      rcases t with _ | st
      · rfl
      · simp only [Part000.cpuTopFallback]
        rcases hq : jsParseFloat (jsTrim st) with _ | tu
        · rfl
        · dsimp only
          split_ifs <;> rfl
    rcases v with _ | sv
    · simp [Part000.getCPUUsage]
    · simp only [Part000.getCPUUsage]
      rcases hp : jsParseFloat (jsTrim sv) with _ | u
      · simp [hfb]
      · dsimp only
        split_ifs <;> simp [hfb]

/-- Claim C6: the `npm install` command is executed iff `node_modules` is
missing (and, in the launcher variant, `package.json` exists); with
`node_modules` present no install command runs, and without `package.json` the
launcher variant runs no install command and returns `false`. -/
theorem npm_install_iff_node_modules_missing (h n ok rok : Bool) (em rm : String) :
    ((RunJs1.ensureTrace h n ok).countP isInstallEv ≠ 0 ↔ h = true ∧ n = false) ∧
    ((RunJs2.ensureTrace n ok rok em rm).countP isInstallEv ≠ 0 ↔ n = false) ∧
    RunJs1.ensureResult false n ok = false ∧
    (RunJs1.ensureTrace false n ok).countP isInstallEv = 0 := by
  refine ⟨?_, ?_, ?_, ?_⟩
  · cases h <;> cases n <;> cases ok <;>
      simp [RunJs1.ensureTrace, isInstallEv_out, isInstall_installCmd1]
  · cases n <;> cases ok <;> cases rok <;>
      simp [RunJs2.ensureTrace, isInstallEv_out, isInstall_installCmd2, isInstall_reinstallCmd2]
  · simp [RunJs1.ensureResult]
  · simp [RunJs1.ensureTrace, isInstallEv_out]

lemma jsEndsWith_js_ne_empty {f : String} (h : jsEndsWith f ".js" = true) : f ≠ "" := by
  intro he
  subst he
  exact absurd h (by decide)

/-- Claim C7 (counterexample): with a `package.json` whose `scripts.start` entry
is defined but empty (`{"scripts":{"start":""}}`), `startApp` does not spawn
`npm start` — the empty string is falsy, so it spawns `node .` instead. -/
theorem startApp_empty_start_script :
    spawnsOf (RunJs1.startAppTrace true ⟨some ⟨some ""⟩⟩ false []) ≠ [("npm", ["start"])] := by
  decide

/-- Claim C7 (amended): `startApp` of the first `src/run.js` document spawns
exactly the child given by the dispatch table — `npm start` for a truthy
(non-empty) `scripts.start`, `node .` when `package.json` exists without one,
`node index.js` or `node <first *.js file>` when `package.json` is absent — and
spawns nothing, printing an error line, exactly when `package.json` is absent
and no `.js` file exists. -/
theorem startApp_dispatch (pe : Bool) (pkg : Pkg) (ie : Bool) (fs : List String) :
    spawnsOf (RunJs1.startAppTrace pe pkg ie fs) = (startAppSpecDispatch pe pkg ie fs).toList ∧
    (startAppSpecDispatch pe pkg ie fs = none →
      Ev.out (colRed ++ "❌ Tidak menemukan file .js untuk dijalankan." ++ colReset) ∈
        RunJs1.startAppTrace pe pkg ie fs) := by
  cases pe
  · cases ie
    · rcases hf : fs.find? (fun f => jsEndsWith f ".js") with _ | f
      · simp [RunJs1.startAppTrace, startAppSpecDispatch, hf, spawnsOf]
      · have hp := List.find?_some hf
        have hne : f ≠ "" := jsEndsWith_js_ne_empty hp
        simp [RunJs1.startAppTrace, startAppSpecDispatch, hf, spawnsOf, hne]
    · simp [RunJs1.startAppTrace, startAppSpecDispatch, spawnsOf]
  · cases hps : pkgHasStart pkg <;>
      simp [RunJs1.startAppTrace, startAppSpecDispatch, hps, spawnsOf]

/-- Witness for claim C7: with no `package.json`, no `index.js` and an empty
directory, the dispatch is `none` and the error line is indeed printed. -/
theorem startApp_dispatch_witness :
    Ev.out (colRed ++ "❌ Tidak menemukan file .js untuk dijalankan." ++ colReset) ∈
      RunJs1.startAppTrace false ⟨none⟩ false [] :=
  (startApp_dispatch false ⟨none⟩ false []).2 (by decide)

/-- Claim C5: a run of the first `src/run.js` document is the concatenation of
the display phase, the install phase and the launch phase, in that order; the
display phase contains no install and no spawn event (so the complete summary is
printed before any installation is attempted), the install phase contains no
spawn event (so installation finishes before the child process), and the launch
phase contains no install event. -/
theorem summary_then_install_then_spawn (e : Env1) :
    RunJs1.mainTrace e =
      RunJs1.displayTrace e.cpuOut e.load0 e.ncpus e.totalmem e.freemem e.uptimeSec
          e.nodeVersion ++
        RunJs1.ensureTrace e.hasPackage e.nmExists e.installOk ++
        RunJs1.startAppTrace e.hasPackage e.pkg e.indexExists e.files ∧
    (RunJs1.displayTrace e.cpuOut e.load0 e.ncpus e.totalmem e.freemem e.uptimeSec
        e.nodeVersion).all (fun ev => !isInstallEv ev && !isSpawnEv ev) = true ∧
    (RunJs1.ensureTrace e.hasPackage e.nmExists e.installOk).all
      (fun ev => !isSpawnEv ev) = true ∧
    (RunJs1.startAppTrace e.hasPackage e.pkg e.indexExists e.files).all
      (fun ev => !isInstallEv ev) = true := by
  refine ⟨rfl, ?_, ?_, ?_⟩
  · simp [RunJs1.displayTrace, RunJs1.displayTraceCore, isInstallEv_out, isSpawnEv_out,
      isInstall_topCmd, isSpawnEv_exec, isInstallEv_clear, isSpawnEv_clear]
  · cases e.hasPackage <;> cases e.nmExists <;> cases e.installOk <;>
      simp [RunJs1.ensureTrace, isInstallEv_out, isSpawnEv_out, isSpawnEv_exec]
  · cases e.hasPackage
    · cases e.indexExists
      · rcases hf : e.files.find? (fun f => jsEndsWith f ".js") with _ | f
        · simp [RunJs1.startAppTrace, hf, isInstallEv_out]
        · have hp := List.find?_some hf
          have hne : f ≠ "" := jsEndsWith_js_ne_empty hp
          simp [RunJs1.startAppTrace, hf, hne, isInstallEv_out, isInstallEv_spawn]
      · simp [RunJs1.startAppTrace, isInstallEv_out, isInstallEv_spawn]
    · cases hps : pkgHasStart e.pkg <;>
        simp [RunJs1.startAppTrace, hps, isInstallEv_out, isInstallEv_spawn]

lemma string_append_assoc (a b c : String) : a ++ b ++ c = a ++ (b ++ c) :=
  congrArg String.mk (List.append_assoc a.data b.data c.data)

lemma mem_of_get?_eq_some {α : Type} {l : List α} {n : Nat} {a : α}
    (h : l.get? n = some a) : a ∈ l := by
  induction l generalizing n with
  | nil => simp [List.get?] at h
  | cons x xs ih =>
    cases n with
    | zero =>
      simp only [List.get?] at h
      simp [Option.some_inj.mp h]
    | succ m => exact List.mem_cons_of_mem _ (ih h)

lemma jsToFixed_one_natCast (k : ℕ) : jsToFixed 1 (some (k : ℚ)) = Nat.repr k ++ ".0" := by
  have hx : ¬ ((k : ℚ) < 0) := not_lt.mpr (Nat.cast_nonneg k)
  have hfloor : toFixedMag 1 (k : ℚ) = ((10 * k : ℕ) : ℤ) := by
    unfold toFixedMag
    rw [ratFloor_eq]
    have h1 : (k : ℚ) * 10 ^ 1 + 1 / 2 = 1 / 2 + ((10 * k : ℕ) : ℚ) := by push_cast; ring
    rw [h1, Int.floor_add_nat, Int.floor_eq_zero_iff.mpr (by constructor <;> norm_num), zero_add]
  have hdiv : 10 * k / 10 ^ 1 = k := by omega
  have hmod : 10 * k % 10 ^ 1 = 0 := by omega
  simp only [jsToFixed, hx, if_false, hfloor, Int.toNat_natCast, hdiv, hmod,
    if_neg (one_ne_zero)]
  have hpad : String.mk (padDigits 1 0) = "0" := by decide
  rw [hpad]
  exact congrArg String.mk (by simp)

/-- Claim C1 (counterexample): when the CPU probe command fails, `getCPUUsage`
of the first `src/run.js` document does not return a fixed fallback constant:
its fallback is computed from the load average, so two failing runs with
different load averages return different strings. -/
theorem runjs1_cpu_fallback_not_constant :
    RunJs1.getCPUUsage none 0 1 ≠ RunJs1.getCPUUsage none 1 1 := by
  have h0 : RunJs1.getCPUUsage none 0 1 = "0.0" := by
    show jsToFixed 1 (some ((0 : ℚ) / 1 * 100)) = "0.0"
    have he : (0 : ℚ) / 1 * 100 = ((0 : ℕ) : ℚ) := by norm_num
    rw [he, jsToFixed_one_natCast]
    decide
  have h1 : RunJs1.getCPUUsage none 1 1 = "100.0" := by
    show jsToFixed 1 (some ((1 : ℚ) / 1 * 100)) = "100.0"
    have he : (1 : ℚ) / 1 * 100 = ((100 : ℕ) : ℚ) := by norm_num
    rw [he, jsToFixed_one_natCast]
    decide
  rw [h0, h1]
  decide

/-- Claim C1 (amended): no metric operation throws — each returns a value for
every command outcome.  Among the cited operations, `getSwapInfo` of
`src/unnamed/part_000` returns the fixed pair `('0B','0B')` when its command
fails or when no field of its output parses as a number, and `getCPUUsage` of
`src/unnamed/part_001` (and of `part_000`) returns the fixed string `'N/A'`
when its command fails; but `getCPUUsage` of `src/run.js` falls back to a
load-average-derived value rather than a fixed constant, and on an unparseable
line `part_001`'s `getCPUUsage` returns `'NaN'`. -/
theorem metric_failure_fallbacks (s s' : String) (l c : ℚ)
    (hnum : ∀ t ∈ jsSplitSpace (jsTrim s), jsToNumber t = none)
    (hparse : jsParseFloat (jsTrim s') = none) :
    Part000.getSwapInfo none = (JSVal.str "0B", JSVal.str "0B") ∧
    Part000.getSwapInfo (some s) = (JSVal.str "0B", JSVal.str "0B") ∧
    Part001.getCPUUsage none = "N/A" ∧
    Part001.getCPUUsage (some s') = "NaN" ∧
    Part000.getCPUUsage none none = ("N/A", [Part000.vmstatCmd]) ∧
    RunJs1.getCPUUsage none l c = jsToFixed 1 (some (l / c * 100)) := by
  refine ⟨rfl, ?_, rfl, ?_, rfl, rfl⟩
  · have hfield : ∀ i : Nat,
        formatBytes (partNum (jsSplitSpace (jsTrim s)) i) 1 = JSVal.str "0B" := by
      intro i
      unfold partNum
      rcases hg : (jsSplitSpace (jsTrim s)).get? i with _ | t
      · rfl
      · dsimp only
        rw [hnum t (mem_of_get?_eq_some hg)]
        rfl
    simp only [Part000.getSwapInfo]
    split
    · rfl
    · rw [hfield 0, hfield 1]
  · show jsToFixed 1 (jsParseFloat (jsTrim s')) = "NaN"
    rw [hparse]
    rfl

/-- Witness for claim C1 at the concrete failing output `"abc def"` (no field
parses), the unparseable CPU line `"xyz"`, and load average `0` over one CPU. -/
theorem metric_failure_fallbacks_witness :
    (∀ t ∈ jsSplitSpace (jsTrim "abc def"), jsToNumber t = none) ∧
    jsParseFloat (jsTrim "xyz") = none ∧
    (Part000.getSwapInfo none = (JSVal.str "0B", JSVal.str "0B") ∧
      Part000.getSwapInfo (some "abc def") = (JSVal.str "0B", JSVal.str "0B") ∧
      Part001.getCPUUsage none = "N/A" ∧
      Part001.getCPUUsage (some "xyz") = "NaN" ∧
      Part000.getCPUUsage none none = ("N/A", [Part000.vmstatCmd]) ∧
      RunJs1.getCPUUsage none 0 1 = jsToFixed 1 (some ((0 : ℚ) / 1 * 100))) :=
  ⟨by decide, by decide, metric_failure_fallbacks "abc def" "xyz" 0 1 (by decide) (by decide)⟩

lemma int_floor_div_natCast (a : ℚ) (ha : 0 ≤ a) (k : ℕ) :
    ⌊a / (k : ℚ)⌋ = ⌊a⌋ / (k : ℤ) := by
  have h1 : (0 : ℚ) ≤ a / (k : ℚ) := div_nonneg ha (Nat.cast_nonneg k)
  calc ⌊a / (k : ℚ)⌋ = ((⌊a / (k : ℚ)⌋₊ : ℕ) : ℤ) := (Int.natCast_floor_eq_floor h1).symm
    _ = ((⌊a⌋₊ / k : ℕ) : ℤ) := by rw [Nat.floor_div_nat]
    _ = ((⌊a⌋₊ : ℕ) : ℤ) / (k : ℤ) := Int.natCast_div _ _
    _ = ⌊a⌋ / (k : ℤ) := by rw [Int.natCast_floor_eq_floor ha]

lemma uptimeComponent_natCast (d : ℕ) (u : String) :
    uptimeComponent ((d : ℕ) : ℤ) u =
      (if 0 < d then [toString d ++ u ++ (if 1 < d then "s" else "")] else []) := by
  have ht : toString ((d : ℕ) : ℤ) = toString d := rfl
  simp only [uptimeComponent, Int.natCast_pos, Nat.one_lt_cast, ht]

lemma rat_floor_natCast_div (n k : ℕ) :
    Rat.floor ((((n : ℕ) : ℤ) : ℚ) / ((k : ℕ) : ℚ)) = ((n / k : ℕ) : ℤ) := by
  rw [ratFloor_eq]
  rw [show ((((n : ℕ) : ℤ) : ℚ)) = ((n : ℕ) : ℚ) by push_cast; ring]
  rw [int_floor_div_natCast _ (Nat.cast_nonneg n) k, Int.floor_natCast]
  norm_cast

lemma int_natCast_tmod (n k : ℕ) : (((n : ℕ) : ℤ)).tmod ((k : ℕ) : ℤ) = ((n % k : ℕ) : ℤ) :=
  (Int.ofNat_tmod n k).symm

lemma floor_fmod_div (s : ℚ) (hs : 0 ≤ s) (n b k : ℕ) (hn2 : ⌊s⌋ = (n : ℤ)) (hb : 0 < b) :
    Rat.floor (jsFmod s ((b : ℕ) : ℚ) / ((k : ℕ) : ℚ)) = ((n % b / k : ℕ) : ℤ) := by
  have hbq : (0 : ℚ) < (b : ℚ) := by exact_mod_cast hb
  have hq : Rat.floor (s / (b : ℚ)) = ⌊s⌋ / (b : ℤ) := by
    rw [ratFloor_eq]; exact int_floor_div_natCast s hs b
  have hle : (b : ℚ) * ((⌊s⌋ / (b : ℤ) : ℤ) : ℚ) ≤ s := by
    have h1 : ((⌊s⌋ / (b : ℤ) : ℤ) : ℚ) ≤ s / (b : ℚ) := by
      rw [← hq, ratFloor_eq]
      exact Int.floor_le _
    calc (b : ℚ) * ((⌊s⌋ / (b : ℤ) : ℤ) : ℚ) ≤ (b : ℚ) * (s / (b : ℚ)) :=
          mul_le_mul_of_nonneg_left h1 (le_of_lt hbq)
      _ = s := by field_simp
  have hsub : jsFmod s ((b : ℕ) : ℚ) = s - ((((b : ℤ) * (⌊s⌋ / (b : ℤ)) : ℤ) : ℚ)) := by
    unfold jsFmod
    rw [hq]
    push_cast
    ring
  have hnn : (0 : ℚ) ≤ jsFmod s ((b : ℕ) : ℚ) := by
    rw [hsub]
    have h2 : ((((b : ℤ) * (⌊s⌋ / (b : ℤ)) : ℤ) : ℚ)) = (b : ℚ) * ((⌊s⌋ / (b : ℤ) : ℤ) : ℚ) := by
      push_cast; ring
    rw [h2]
    linarith [hle]
  have hfl : ⌊jsFmod s ((b : ℕ) : ℚ)⌋ = ((n % b : ℕ) : ℤ) := by
    rw [hsub, Int.floor_sub_int, hn2, ← Int.emod_def]
    exact (Int.ofNat_emod n b).symm
  rw [ratFloor_eq, int_floor_div_natCast _ hnn k, hfl]
  norm_cast

/-- Claim C8: for every nonnegative `s`, both `formatUptime` variants return the
uptime string of the claim's formula: the space-joined nonzero components
`<d> day(s)`, `<h> hour(s)`, `<m> minute(s)` with `d = ⌊⌊s⌋/86400⌋`,
`h = ⌊(⌊s⌋ mod 86400)/3600⌋`, `m = ⌊(⌊s⌋ mod 3600)/60⌋`, the plural `s` exactly
for components exceeding 1, and `'0 minutes'` when all three are zero. -/
theorem formatUptime_spec (s : ℚ) (hs : 0 ≤ s) :
    formatUptime s =
      uptimeSpecString (s.floor.toNat / 86400) (s.floor.toNat % 86400 / 3600)
        (s.floor.toNat % 3600 / 60) ∧
    Part001.formatUptime s =
      uptimeSpecString (s.floor.toNat / 86400) (s.floor.toNat % 86400 / 3600)
        (s.floor.toNat % 3600 / 60) := by
  have hs0 : 0 ≤ ⌊s⌋ := Int.floor_nonneg.mpr hs
  obtain ⟨n, hn2⟩ : ∃ n : ℕ, ⌊s⌋ = (n : ℤ) := ⟨⌊s⌋.toNat, (Int.toNat_of_nonneg hs0).symm⟩
  have hsf : s.floor = ((n : ℕ) : ℤ) := by rw [ratFloor_eq]; exact hn2
  have hsfn : s.floor.toNat = n := by rw [hsf, Int.toNat_natCast]
  rw [hsfn]
  constructor
  · simp only [formatUptime, hsf]
    rw [show ((((n : ℕ) : ℤ) : ℚ) / 86400) =
        ((((n : ℕ) : ℤ) : ℚ) / ((86400 : ℕ) : ℚ)) by norm_cast]
    rw [rat_floor_natCast_div]
    rw [show ((86400 : ℤ)) = ((86400 : ℕ) : ℤ) by norm_cast,
      show ((3600 : ℤ)) = ((3600 : ℕ) : ℤ) by norm_cast]
    rw [int_natCast_tmod, int_natCast_tmod]
    rw [show ((((n % 86400 : ℕ) : ℤ) : ℚ) / 3600) =
        ((((n % 86400 : ℕ) : ℤ) : ℚ) / ((3600 : ℕ) : ℚ)) by norm_cast]
    rw [show ((((n % 3600 : ℕ) : ℤ) : ℚ) / 60) =
        ((((n % 3600 : ℕ) : ℤ) : ℚ) / ((60 : ℕ) : ℚ)) by norm_cast]
    rw [rat_floor_natCast_div, rat_floor_natCast_div]
    rw [uptimeComponent_natCast, uptimeComponent_natCast, uptimeComponent_natCast]
    rfl
  · simp only [Part001.formatUptime]
    rw [show ((86400 : ℚ)) = ((86400 : ℕ) : ℚ) by norm_cast,
      show ((3600 : ℚ)) = ((3600 : ℕ) : ℚ) by norm_cast,
      show ((60 : ℚ)) = ((60 : ℕ) : ℚ) by norm_cast]
    rw [show Rat.floor (s / ((86400 : ℕ) : ℚ)) = ((n / 86400 : ℕ) : ℤ) by
      rw [ratFloor_eq, int_floor_div_natCast s hs 86400, hn2]
      norm_cast]
    rw [floor_fmod_div s hs n 86400 3600 hn2 (by norm_num),
      floor_fmod_div s hs n 3600 60 hn2 (by norm_num)]
    rw [uptimeComponent_natCast, uptimeComponent_natCast, uptimeComponent_natCast]
    rfl

/-- Witness for claim C8 at `s = 90061` (1 day, 1 hour, 1 minute). -/
theorem formatUptime_spec_witness :
    formatUptime ((90061 : ℕ) : ℚ) =
      uptimeSpecString (((90061 : ℕ) : ℚ).floor.toNat / 86400)
        (((90061 : ℕ) : ℚ).floor.toNat % 86400 / 3600)
        (((90061 : ℕ) : ℚ).floor.toNat % 3600 / 60) ∧
    Part001.formatUptime ((90061 : ℕ) : ℚ) =
      uptimeSpecString (((90061 : ℕ) : ℚ).floor.toNat / 86400)
        (((90061 : ℕ) : ℚ).floor.toNat % 86400 / 3600)
        (((90061 : ℕ) : ℚ).floor.toNat % 3600 / 60) :=
  formatUptime_spec ((90061 : ℕ) : ℚ) (Nat.cast_nonneg 90061)

/-- Claim C9: for `1 ≤ bytes < 1024^5`, `formatBytes(bytes, 1)` returns the value
`bytes / 1024^i` rounded to one decimal place with a trailing `.0` stripped
(`jsToFixedStrip 1`), immediately followed by the suffix `['B','K','M','G','T'][i]`,
where `i` is the (unique) exponent with `1024^i ≤ bytes < 1024^(i+1)`. -/
theorem formatBytes_bracket (b i : ℕ) (hb : 1 ≤ b) (hlo : 1024 ^ i ≤ b)
    (hhi : b < 1024 ^ (i + 1)) (hframe : b < 1024 ^ 5) :
    formatBytes (some ((b : ℕ) : ℚ)) 1 =
      JSVal.str (jsToFixedStrip 1 (((b : ℕ) : ℚ) / 1024 ^ i) ++ sizesList.getD i "") := by
  have hb0 : ¬ (((b : ℕ) : ℚ) = 0) := Nat.cast_ne_zero.mpr (by omega)
  have hb1 : ¬ (((b : ℕ) : ℚ) < 1) := not_lt.mpr (by exact_mod_cast hb)
  have hfl : (((b : ℕ) : ℚ)).floor.toNat = b := by
    rw [ratFloor_eq, Int.floor_natCast, Int.toNat_natCast]
  have hlog : Nat.log 1024 b = i := Nat.log_eq_of_pow_le_of_lt_pow hlo hhi
  have hi5 : i < 5 := by
    by_contra hge
    push_neg at hge
    have hpow : (1024 : ℕ) ^ 5 ≤ 1024 ^ i := Nat.pow_le_pow_right (by norm_num) hge
    omega
  simp only [formatBytes, formatBytesCore, if_neg hb0, if_neg hb1, hfl, hlog, if_pos hi5]
  norm_num

/-- Witness for claim C9 at `bytes = 1536`, `i = 1` (the `"1.5K"` case). -/
theorem formatBytes_bracket_witness :
    (1 ≤ 1536 ∧ 1024 ^ 1 ≤ 1536 ∧ 1536 < 1024 ^ 2 ∧ 1536 < 1024 ^ 5) ∧
    formatBytes (some ((1536 : ℕ) : ℚ)) 1 =
      JSVal.str (jsToFixedStrip 1 (((1536 : ℕ) : ℚ) / 1024 ^ 1) ++ sizesList.getD 1 "") :=
  ⟨⟨by decide, by decide, by decide, by decide⟩,
    formatBytes_bracket 1536 1 (by decide) (by decide) (by decide) (by decide)⟩
